import Mathlib

/-!
Shallow embedding of the `tmsadm` command-line program (src/main.rs).

The program parses command-line arguments into `TmsadmArgs`, checks that the
database file exists, builds one of six SQL statements, optionally runs a
LIST-then-confirm sequence for deletes, and invokes the external `sqlite3`
client.  Effects (process invocations, the confirmation prompt) are modelled
as an explicit event trace; fatal `panic!` terminations are modelled as the
`.error` branch of `Except String`, a `.ok` result standing for process exit
code 0.  Interactions with the operating system (stdin, the filesystem, child
processes, and the `shellexpand` / `path-absolutize` library calls) are
parameters gathered in `PathEnv` and `World`.
-/

namespace Tmsadm

-- Sqlite command line program that we call to access the database
-- (constant SQLITE3 in main.rs).
def SQLITE3 : String := "sqlite3"

-- SQL command prototypes (constants in main.rs, lines 35-40).
def LIST_PUBKEY : String := "SELECT * FROM pubkeys "

def LIST_CLIENT : String := "SELECT * FROM clients "

def LIST_DELEGATION : String := "SELECT * FROM delegations "

def DELETE_PUBKEY : String := "DELETE FROM pubkeys "

def DELETE_CLIENT : String := "DELETE FROM clients "

def DELETE_DELEGATION : String := "DELETE FROM delegations "

/-- Enum `TmsOperation` from main.rs. -/
inductive TmsOperation where
  | LIST
  | DELETE
deriving DecidableEq, Repr

/-- Enum `TmsResource` from main.rs. -/
inductive TmsResource where
  | pubkey
  | client
  | delegation
deriving DecidableEq, Repr

/-- Struct `TmsadmArgs` from main.rs: the parsed command-line arguments.
The `i32` field `limit` is modelled as `Int`. -/
structure TmsadmArgs where
  operation : TmsOperation
  resource : TmsResource
  dbpath : String
  json_off : Bool
  echo_off : Bool
  header_off : Bool
  limit : Int
  confirm_delete_off : Bool
  sqlwhere : Option String
deriving DecidableEq, Repr

/-- Environment for `get_absolute_path`: the behaviour of the external
`shellexpand::full` and `path_absolutize::Absolutize::absolutize` library
calls, plus `Path::to_str`.  `Os` stands for the OS-path type returned by
`absolutize` (a `Path`, possibly not valid UTF-8, hence `toStr` is
partial). -/
structure PathEnv (Os : Type) where
  shellexpandFull : String → Except String String
  absolutize : String → Except String Os
  toStr : Os → Option String

/-- `get_absolute_path` from main.rs (lines 332-353): expand `~` and
environment variables, then absolutize; on any failure return the original
input string unchanged. -/
def get_absolute_path {Os : Type} (env : PathEnv Os) (path : String) : String :=
  match env.shellexpandFull path with
  | .error _ => path
  | .ok s =>
    match env.absolutize s with
    | .error _ => path
    | .ok p1 =>
      match env.toStr p1 with
      | none => path
      | some p2 => p2

/-- An external command invocation: program name plus ordered arguments
(Rust `std::process::Command`, as assembled by `make_sqlite3_cmd`). -/
structure OsCommand where
  program : String
  args : List String
deriving DecidableEq, Repr

/-- The SQL-statement construction inside `make_sqlite3_cmd`
(main.rs lines 187-195): start from the prototype, append the optional
WHERE clause, then append a LIMIT suffix when the limit is positive. -/
def make_sql_stmt (args : TmsadmArgs) (sql_stmt : String) : String :=
  let sql := sql_stmt
  let sql :=
    match args.sqlwhere with
    | some wh => sql ++ wh
    | none => sql
  if args.limit > 0 then (sql ++ " LIMIT ") ++ toString args.limit else sql

/-- `make_sqlite3_cmd` from main.rs (lines 185-205): build the `sqlite3`
invocation `sqlite3 [-json] [-header] [-echo] <resolved dbpath> <sql>`. -/
def make_sqlite3_cmd {Os : Type} (env : PathEnv Os) (args : TmsadmArgs)
    (sql_stmt : String) : OsCommand :=
  let sql := make_sql_stmt args sql_stmt
  { program := SQLITE3
    args := (if !args.json_off then ["-json"] else []) ++
            (if !args.header_off then ["-header"] else []) ++
            (if !args.echo_off then ["-echo"] else []) ++
            [get_absolute_path env args.dbpath, sql] }

/-- The SQL text of a built command: its final argument. -/
def OsCommand.sql (c : OsCommand) : Option String := c.args.getLast?

/-- The part of a built SQL statement that follows the fixed prototype:
optional WHERE clause followed by the optional LIMIT suffix. -/
def sql_tail (args : TmsadmArgs) : String :=
  (match args.sqlwhere with
   | some wh => wh
   | none => "") ++
  (if args.limit > 0 then " LIMIT " ++ toString args.limit else "")

theorem make_sql_stmt_eq (args : TmsadmArgs) (p : String) :
    make_sql_stmt args p = p ++ sql_tail args := by
  unfold make_sql_stmt sql_tail
  cases h : args.sqlwhere with
  | none =>
    by_cases hl : args.limit > 0 <;>
      simp [hl, String.ext_iff, String.data_append]
  | some wh =>
    by_cases hl : args.limit > 0 <;>
      simp [hl, String.ext_iff, String.data_append]

theorem sql_of_make_sqlite3_cmd {Os : Type} (env : PathEnv Os)
    (args : TmsadmArgs) (p : String) :
    (make_sqlite3_cmd env args p).sql = some (p ++ sql_tail args) := by
  unfold make_sqlite3_cmd OsCommand.sql
  simp [make_sql_stmt_eq]

/-- Outcome of a successfully launched child process, as observed by
`run_command`: whether `o.status.success()` held, the rendering of
`o.status`, and the result of `String::from_utf8(o.stderr)` (`none` when the
captured standard error is not valid UTF-8). -/
structure CmdOutput where
  success : Bool
  statusStr : String
  stderrUtf8 : Option String
deriving DecidableEq, Repr

/-- The operating-system behaviour the program interacts with: the path
libraries, `Path::is_file`, the one `read_line` from stdin used by
`confirm_delete`, and `execute_output` on a built command. -/
structure World (Os : Type) where
  pathEnv : PathEnv Os
  isFile : String → Bool
  stdin : Except String String
  exec : OsCommand → Except String CmdOutput

/-- Observable effects of a run: an attempted child-process invocation
(with its task label), and the printing of the delete-confirmation prompt. -/
inductive Event where
  | ranCmd (cmd : OsCommand) (task : String)
  | prompted
deriving DecidableEq, Repr

/-- `run_command_emsg` from main.rs (lines 398-402).  The model's
`OsCommand.program` is always a UTF-8 string, so the
`to_str().unwrap_or("unknown")` fallback does not arise. -/
def run_command_emsg (command : OsCommand) (statusStr : String) : String :=
  "Unknown error condition returned by command: " ++ command.program ++
  " with exit status: " ++ statusStr

/-- `run_command` from main.rs (lines 369-392): execute the command; on a
zero exit status return control, otherwise panic with the task-prefixed
message built from captured stderr (or the generic message when stderr is
not UTF-8); if the command could not be launched, panic with the
task-prefixed launch error. -/
def run_command {Os : Type} (w : World Os) (command : OsCommand)
    (task : String) : List Event × Except String Unit :=
  ([Event.ranCmd command task],
   match w.exec command with
   | .ok o =>
     if o.success then .ok ()
     else .error (task ++ ": " ++
       (o.stderrUtf8.getD (run_command_emsg command o.statusStr)))
   | .error e => .error (task ++ ": " ++ e))

/-- Rust `str::starts_with('y')`: the first character is `y`. -/
def starts_with_y (s : String) : Bool :=
  match s.data with
  | [] => false
  | c :: _ => c == 'y'

/-- Rust `str::to_lowercase`, modelled character-wise (faithful on the
ASCII inputs relevant here). -/
def rust_to_lowercase (s : String) : String :=
  ⟨s.data.map Char.toLower⟩

/-- Rust `str::trim`, modelled on the character list: drop leading and
trailing whitespace. -/
def rust_trim (s : String) : String :=
  ⟨((s.data.dropWhile Char.isWhitespace).reverse.dropWhile
      Char.isWhitespace).reverse⟩

/-- `confirm_delete` from main.rs (lines 295-308), as a function of the
`read_line` result: on a successful read, proceed iff the lowercased input
starts with `y`; a read failure panics.  (The printing of the prompt is
modelled as the `Event.prompted` entry emitted at the call sites.) -/
def confirm_delete (stdin : Except String String) : Except String Bool :=
  match stdin with
  | .ok input => .ok (starts_with_y (rust_to_lowercase input))
  | .error e => .error ("error: " ++ e)

/-- `check_db_file` from main.rs (lines 284-288): panic when the resolved
database path is not an existing file. -/
def check_db_file {Os : Type} (w : World Os) (args : TmsadmArgs) :
    Except String Unit :=
  if !(w.isFile (get_absolute_path w.pathEnv args.dbpath)) then
    .error ("Database file does not exist: " ++
      get_absolute_path w.pathEnv args.dbpath)
  else .ok ()

/-- `process_list_pubkey` from main.rs. -/
def process_list_pubkey {Os : Type} (w : World Os) (args : TmsadmArgs) :
    List Event × Except String Unit :=
  run_command w (make_sqlite3_cmd w.pathEnv args LIST_PUBKEY) "LIST pubkeys"

/-- `process_list_client` from main.rs. -/
def process_list_client {Os : Type} (w : World Os) (args : TmsadmArgs) :
    List Event × Except String Unit :=
  run_command w (make_sqlite3_cmd w.pathEnv args LIST_CLIENT) "LIST clients"

/-- `process_list_delegation` from main.rs. -/
def process_list_delegation {Os : Type} (w : World Os) (args : TmsadmArgs) :
    List Event × Except String Unit :=
  run_command w (make_sqlite3_cmd w.pathEnv args LIST_DELEGATION)
    "LIST delegations"

/-- Shared shape of the three `process_delete_*` functions: unless
confirmation is off, first run the given LIST processor, then prompt; on a
decline return successfully; otherwise run the DELETE command. -/
def process_delete_generic {Os : Type} (w : World Os) (args : TmsadmArgs)
    (listProc : World Os → TmsadmArgs → List Event × Except String Unit)
    (deleteProto : String) (deleteTask : String) :
    List Event × Except String Unit :=
  if !args.confirm_delete_off then
    let r1 := listProc w args
    match r1.2 with
    | .error e => (r1.1, .error e)
    | .ok _ =>
      match confirm_delete w.stdin with
      | .error e => (r1.1 ++ [Event.prompted], .error e)
      | .ok b =>
        if b then
          let r2 := run_command w (make_sqlite3_cmd w.pathEnv args deleteProto)
            deleteTask
          (r1.1 ++ [Event.prompted] ++ r2.1, r2.2)
        else (r1.1 ++ [Event.prompted], .ok ())
  else
    run_command w (make_sqlite3_cmd w.pathEnv args deleteProto) deleteTask

/-- `process_delete_pubkey` from main.rs (lines 135-145). -/
def process_delete_pubkey {Os : Type} (w : World Os) (args : TmsadmArgs) :
    List Event × Except String Unit :=
  process_delete_generic w args process_list_pubkey DELETE_PUBKEY
    "DELETE pubkeys"

/-- `process_delete_client` from main.rs (lines 150-161). -/
def process_delete_client {Os : Type} (w : World Os) (args : TmsadmArgs) :
    List Event × Except String Unit :=
  process_delete_generic w args process_list_client DELETE_CLIENT
    "DELETE clients"

/-- `process_delete_delegation` from main.rs (lines 166-176). -/
def process_delete_delegation {Os : Type} (w : World Os) (args : TmsadmArgs) :
    List Event × Except String Unit :=
  process_delete_generic w args process_list_delegation DELETE_DELEGATION
    "DELETE delegations"

/-- `main` from main.rs (lines 75-103): check the database file, then
dispatch on (operation, resource).  The debug printing of the parsed
arguments has no modelled effect. -/
def main {Os : Type} (w : World Os) (args : TmsadmArgs) :
    List Event × Except String Unit :=
  match check_db_file w args with
  | .error e => ([], .error e)
  | .ok _ =>
    if args.operation = TmsOperation.LIST then
      if args.resource = TmsResource.pubkey then process_list_pubkey w args
      else if args.resource = TmsResource.client then
        process_list_client w args
      else process_list_delegation w args
    else
      if args.resource = TmsResource.pubkey then process_delete_pubkey w args
      else if args.resource = TmsResource.client then
        process_delete_client w args
      else process_delete_delegation w args

/-- The LIST prototype selected for a resource (main.rs dispatch). -/
def list_proto : TmsResource → String
  | .pubkey => LIST_PUBKEY
  | .client => LIST_CLIENT
  | .delegation => LIST_DELEGATION

/-- The LIST task label for a resource. -/
def list_task : TmsResource → String
  | .pubkey => "LIST pubkeys"
  | .client => "LIST clients"
  | .delegation => "LIST delegations"

/-- The DELETE prototype selected for a resource (main.rs dispatch). -/
def delete_proto : TmsResource → String
  | .pubkey => DELETE_PUBKEY
  | .client => DELETE_CLIENT
  | .delegation => DELETE_DELEGATION

/-- The DELETE task label for a resource. -/
def delete_task : TmsResource → String
  | .pubkey => "DELETE pubkeys"
  | .client => "DELETE clients"
  | .delegation => "DELETE delegations"

/-! ### Helper lemmas about the embedding -/

theorem run_command_ok {Os : Type} (w : World Os) (c : OsCommand)
    (task : String) (o : CmdOutput) (hex : w.exec c = .ok o)
    (hsu : o.success = true) :
    run_command w c task = ([Event.ranCmd c task], .ok ()) := by
  unfold run_command
  rw [hex]
  simp [hsu]

theorem main_list_eq {Os : Type} (w : World Os) (args : TmsadmArgs)
    (hdb : w.isFile (get_absolute_path w.pathEnv args.dbpath) = true)
    (hop : args.operation = TmsOperation.LIST) :
    main w args =
      run_command w (make_sqlite3_cmd w.pathEnv args (list_proto args.resource))
        (list_task args.resource) := by
  unfold main check_db_file
  rw [hdb]
  cases hr : args.resource <;>
    simp [hop, hr, process_list_pubkey, process_list_client,
      process_list_delegation, list_proto, list_task]

theorem main_delete_eq {Os : Type} (w : World Os) (args : TmsadmArgs)
    (hdb : w.isFile (get_absolute_path w.pathEnv args.dbpath) = true)
    (hop : args.operation = TmsOperation.DELETE) :
    main w args =
      process_delete_generic w args
        (fun w1 a1 =>
          run_command w1 (make_sqlite3_cmd w1.pathEnv a1 (list_proto args.resource))
            (list_task args.resource))
        (delete_proto args.resource) (delete_task args.resource) := by
  unfold main check_db_file
  rw [hdb]
  cases hr : args.resource <;>
    simp [hop, hr, process_delete_pubkey, process_delete_client,
      process_delete_delegation, process_list_pubkey, process_list_client,
      process_list_delegation, list_proto, list_task, delete_proto,
      delete_task] <;> rfl

theorem process_delete_generic_off {Os : Type} (w : World Os)
    (args : TmsadmArgs)
    (listProc : World Os → TmsadmArgs → List Event × Except String Unit)
    (dp dt : String) (hcf : args.confirm_delete_off = true) :
    process_delete_generic w args listProc dp dt =
      run_command w (make_sqlite3_cmd w.pathEnv args dp) dt := by
  unfold process_delete_generic
  rw [hcf]
  simp

theorem process_delete_generic_declined {Os : Type} (w : World Os)
    (args : TmsadmArgs)
    (listProc : World Os → TmsadmArgs → List Event × Except String Unit)
    (dp dt : String) (input : String)
    (hcf : args.confirm_delete_off = false)
    (hlist : (listProc w args).2 = .ok ())
    (hin : w.stdin = .ok input)
    (hdec : starts_with_y (rust_to_lowercase input) = false) :
    process_delete_generic w args listProc dp dt =
      ((listProc w args).1 ++ [Event.prompted], .ok ()) := by
  unfold process_delete_generic
  rw [hcf]
  simp only [Bool.not_false, if_pos]
  rw [hlist]
  unfold confirm_delete
  rw [hin]
  simp [hdec]

theorem process_delete_generic_prompt_trace {Os : Type} (w : World Os)
    (args : TmsadmArgs)
    (listProc : World Os → TmsadmArgs → List Event × Except String Unit)
    (dp dt : String)
    (hcf : args.confirm_delete_off = false)
    (hlist : (listProc w args).2 = .ok ()) :
    ∃ rest, (process_delete_generic w args listProc dp dt).1 =
      (listProc w args).1 ++ Event.prompted :: rest := by
  unfold process_delete_generic
  rw [hcf]
  simp only [Bool.not_false, if_pos]
  rw [hlist]
  unfold confirm_delete
  cases hs : w.stdin with
  | error e => exact ⟨[], by simp⟩
  | ok input =>
    cases hy : starts_with_y (rust_to_lowercase input) with
    | false => exact ⟨[], by simp [hy]⟩
    | true =>
      exact ⟨(run_command w (make_sqlite3_cmd w.pathEnv args dp) dt).1,
        by simp [hy]⟩

theorem starts_with_y_iff (s : String) :
    starts_with_y s = true ↔ ∃ rest, s = "y" ++ rest := by
  obtain ⟨l⟩ := s
  cases l with
  | nil =>
    constructor
    · intro h
      simp [starts_with_y] at h
    · rintro ⟨rest, h⟩
      rw [String.ext_iff] at h
      simp [String.data_append] at h
  | cons c cs =>
    constructor
    · intro h
      have hc : c = 'y' := by
        simpa [starts_with_y] using h
      exact ⟨⟨cs⟩, by
        apply String.ext
        simp [String.data_append, hc]⟩
    · rintro ⟨rest, h⟩
      rw [String.ext_iff] at h
      simp [String.data_append] at h
      simp [starts_with_y, h.1]

/-! ### Concrete fixtures used by witness theorems -/

/-- A `PathEnv` in which both library calls succeed and act as the
identity. -/
def idPathEnv : PathEnv String :=
  { shellexpandFull := fun s => .ok s
    absolutize := fun s => .ok s
    toStr := fun s => some s }

/-- A world where the database file exists, every child process succeeds,
and stdin answers `n`. -/
def okWorld : World String :=
  { pathEnv := idPathEnv
    isFile := fun _ => true
    stdin := .ok "n\n"
    exec := fun _ =>
      .ok { success := true, statusStr := "exit status: 0",
            stderrUtf8 := some "" } }

/-- Arguments: `--operation LIST --resource pubkey` with all defaults. -/
def argsListPubkey : TmsadmArgs :=
  { operation := .LIST
    resource := .pubkey
    dbpath := "/home/tms/.tms/database/tms.db"
    json_off := false
    echo_off := false
    header_off := false
    limit := 0
    confirm_delete_off := false
    sqlwhere := none }

/-- Arguments of end-to-end scenario A: `--operation LIST --resource pubkey
--limit 5`. -/
def argsScenarioA : TmsadmArgs :=
  { argsListPubkey with limit := 5 }

/-- Arguments of end-to-end scenario B: `--operation DELETE --resource
client --sqlwhere "WHERE host = x" --confirm-delete-off`. -/
def argsScenarioB : TmsadmArgs :=
  { argsListPubkey with
      operation := .DELETE
      resource := .client
      confirm_delete_off := true
      sqlwhere := some "WHERE host = x" }

/-- Arguments: `--operation DELETE --resource pubkey` with all defaults
(confirmation on). -/
def argsDeletePubkey : TmsadmArgs :=
  { argsListPubkey with operation := .DELETE }

/-! ### Claims -/

/-- C1: for every one of the six (operation, resource) pairs, the SQL
statement built by the program begins, byte for byte, with the
corresponding prototype from the mapping table; the dispatch in `main`
runs exactly the command built from that prototype (for DELETE, shown on
the direct path with confirmation off; the confirmation path is the
subject of C6). -/
theorem c1_sql_statement_prototypes {Os : Type} (w : World Os)
    (args : TmsadmArgs)
    (hdb : w.isFile (get_absolute_path w.pathEnv args.dbpath) = true) :
    (∃ tail,
      (make_sqlite3_cmd w.pathEnv args LIST_PUBKEY).sql =
        some ("SELECT * FROM pubkeys " ++ tail) ∧
      (make_sqlite3_cmd w.pathEnv args LIST_CLIENT).sql =
        some ("SELECT * FROM clients " ++ tail) ∧
      (make_sqlite3_cmd w.pathEnv args LIST_DELEGATION).sql =
        some ("SELECT * FROM delegations " ++ tail) ∧
      (make_sqlite3_cmd w.pathEnv args DELETE_PUBKEY).sql =
        some ("DELETE FROM pubkeys " ++ tail) ∧
      (make_sqlite3_cmd w.pathEnv args DELETE_CLIENT).sql =
        some ("DELETE FROM clients " ++ tail) ∧
      (make_sqlite3_cmd w.pathEnv args DELETE_DELEGATION).sql =
        some ("DELETE FROM delegations " ++ tail)) ∧
    (args.operation = TmsOperation.LIST →
      (main w args).1 =
        [Event.ranCmd
          (make_sqlite3_cmd w.pathEnv args (list_proto args.resource))
          (list_task args.resource)]) ∧
    (args.operation = TmsOperation.DELETE →
      args.confirm_delete_off = true →
      (main w args).1 =
        [Event.ranCmd
          (make_sqlite3_cmd w.pathEnv args (delete_proto args.resource))
          (delete_task args.resource)]) := by
  refine ⟨⟨sql_tail args, ?_, ?_, ?_, ?_, ?_, ?_⟩, ?_, ?_⟩
  · exact sql_of_make_sqlite3_cmd w.pathEnv args LIST_PUBKEY
  · exact sql_of_make_sqlite3_cmd w.pathEnv args LIST_CLIENT
  · exact sql_of_make_sqlite3_cmd w.pathEnv args LIST_DELEGATION
  · exact sql_of_make_sqlite3_cmd w.pathEnv args DELETE_PUBKEY
  · exact sql_of_make_sqlite3_cmd w.pathEnv args DELETE_CLIENT
  · exact sql_of_make_sqlite3_cmd w.pathEnv args DELETE_DELEGATION
  · intro hop
    rw [main_list_eq w args hdb hop]
    rfl
  · intro hop hcf
    rw [main_delete_eq w args hdb hop,
      process_delete_generic_off w args _ _ _ hcf]
    rfl

/-- C1 witness: on a concrete world and the scenario-A arguments, `main`
runs the `SELECT * FROM pubkeys` command. -/
theorem c1_witness :
    (main okWorld argsScenarioA).1 =
      [Event.ranCmd
        (make_sqlite3_cmd okWorld.pathEnv argsScenarioA
          (list_proto argsScenarioA.resource))
        (list_task argsScenarioA.resource)] :=
  (c1_sql_statement_prototypes okWorld argsScenarioA rfl).2.1 rfl

/-- C2: when the limit is non-positive, no LIMIT text is appended (the
statement is exactly the prototype plus the optional WHERE clause — in
particular limit 0 is never rendered as `LIMIT 0`); when the limit is
positive, the statement ends with the literal text ` LIMIT <limit>` in
decimal. -/
theorem c2_limit_clause (args : TmsadmArgs) (p : String) :
    (args.limit ≤ 0 →
      make_sql_stmt args p =
        p ++ (match args.sqlwhere with
              | some wh => wh
              | none => "")) ∧
    (args.limit > 0 →
      ∃ stem, make_sql_stmt args p =
        stem ++ (" LIMIT " ++ toString args.limit)) := by
  constructor
  · intro h
    have hl : ¬ args.limit > 0 := not_lt.mpr h
    unfold make_sql_stmt
    cases hw : args.sqlwhere <;>
      simp [hl, hw, String.ext_iff, String.data_append]
  · intro h
    refine ⟨p ++ (match args.sqlwhere with
                  | some wh => wh
                  | none => ""), ?_⟩
    unfold make_sql_stmt
    cases hw : args.sqlwhere <;>
      simp [h, hw, String.ext_iff, String.data_append]

/-- C2 witness: at limit 0 the built statement is the bare prototype (no
`LIMIT 0`), and at limit 5 it ends with ` LIMIT 5`. -/
theorem c2_witness :
    (make_sql_stmt argsListPubkey LIST_PUBKEY =
      LIST_PUBKEY ++ (match argsListPubkey.sqlwhere with
                      | some wh => wh
                      | none => "")) ∧
    ∃ stem, make_sql_stmt argsScenarioA LIST_PUBKEY =
      stem ++ (" LIMIT " ++ toString argsScenarioA.limit) :=
  ⟨(c2_limit_clause argsListPubkey LIST_PUBKEY).1 (by decide),
   (c2_limit_clause argsScenarioA LIST_PUBKEY).2 (by decide)⟩

/-- C3: when a WHERE clause is supplied, the built statement is exactly the
prototype, then the WHERE clause verbatim with no added separator, then the
` LIMIT <limit>` suffix when the limit is positive and nothing otherwise. -/
theorem c3_where_clause (args : TmsadmArgs) (p wh : String)
    (h : args.sqlwhere = some wh) :
    make_sql_stmt args p =
      (p ++ wh) ++
      (if args.limit > 0 then " LIMIT " ++ toString args.limit else "") := by
  unfold make_sql_stmt
  rw [h]
  by_cases hl : args.limit > 0 <;>
    simp [hl, String.ext_iff, String.data_append]

/-- C3 witness (end-to-end scenario B statement): the DELETE prototype plus
the supplied WHERE clause, with no LIMIT suffix at the default limit 0. -/
theorem c3_witness :
    make_sql_stmt argsScenarioB DELETE_CLIENT =
      (DELETE_CLIENT ++ "WHERE host = x") ++
      (if argsScenarioB.limit > 0
       then " LIMIT " ++ toString argsScenarioB.limit else "") :=
  c3_where_clause argsScenarioB DELETE_CLIENT "WHERE host = x" rfl

/-- The confirmation predicate as the claim words it: the trimmed,
case-folded input begins with the character `y`. -/
def confirm_claimed (input : String) : Bool :=
  starts_with_y (rust_to_lowercase (rust_trim input))

/-- C4 counterexample: on the input line `" y"` the claim (proceed iff
the TRIMMED, case-folded input begins with `y`) demands proceeding, but
`confirm_delete` declines — the code lowercases without trimming, so a
leading space defeats the match. -/
theorem c4_counterexample :
    confirm_delete (Except.ok " y") = Except.ok false ∧
    confirm_claimed " y" = true := by
  constructor <;> rfl

/-- C4 (amended): the program proceeds to the delete iff the case-folded
input — NOT trimmed — begins with the character `y` (so `y`, `Y`, `yes`
proceed; `n`, the empty line, `no`, or any line whose first character is
not `y`/`Y` — including a leading space before a `y` — declines); a
failure reading the input is fatal rather than a decline. -/
theorem c4_confirm_decision :
    (∀ input r, confirm_delete (Except.ok input) = Except.ok r →
      (r = true ↔ ∃ rest, rust_to_lowercase input = "y" ++ rest)) ∧
    (∀ e, confirm_delete (Except.error e) =
      Except.error ("error: " ++ e)) := by
  constructor
  · intro input r h
    have hr : r = starts_with_y (rust_to_lowercase input) := by
      simpa [confirm_delete] using h.symm
    rw [hr]
    exact starts_with_y_iff (rust_to_lowercase input)
  · intro e
    rfl

/-- C4 witness: applying the amended theorem at the concrete input line
`"Yes"` shows its case-folding begins with `y`. -/
theorem c4_witness : ∃ rest, rust_to_lowercase "Yes" = "y" ++ rest :=
  ((c4_confirm_decision.1 "Yes" true rfl).mp rfl)

/-- C5: a DELETE run whose confirmation prompt is answered with a declining
input performs no further action — the trace is exactly the LIST display
followed by the prompt, the DELETE statement is never executed — and the
program terminates as a normal success (`.ok`), not an error. -/
theorem c5_declined_delete {Os : Type} (w : World Os) (args : TmsadmArgs)
    (o : CmdOutput) (input : String)
    (hop : args.operation = TmsOperation.DELETE)
    (hcf : args.confirm_delete_off = false)
    (hdb : w.isFile (get_absolute_path w.pathEnv args.dbpath) = true)
    (hex : w.exec (make_sqlite3_cmd w.pathEnv args (list_proto args.resource)) =
      .ok o)
    (hsu : o.success = true)
    (hin : w.stdin = .ok input)
    (hdec : starts_with_y (rust_to_lowercase input) = false) :
    main w args =
      ([Event.ranCmd
          (make_sqlite3_cmd w.pathEnv args (list_proto args.resource))
          (list_task args.resource),
        Event.prompted], .ok ()) ∧
    ∀ c, Event.ranCmd c (delete_task args.resource) ∉ (main w args).1 := by
  have hlist :
      ((fun w1 a1 =>
          run_command w1
            (make_sqlite3_cmd w1.pathEnv a1 (list_proto args.resource))
            (list_task args.resource)) w args).2 = Except.ok () := by
    simp [run_command_ok w _ _ o hex hsu]
  have hmain : main w args =
      ([Event.ranCmd
          (make_sqlite3_cmd w.pathEnv args (list_proto args.resource))
          (list_task args.resource),
        Event.prompted], .ok ()) := by
    rw [main_delete_eq w args hdb hop,
      process_delete_generic_declined w args _ _ _ input hcf hlist hin hdec]
    simp [run_command_ok w _ _ o hex hsu]
  refine ⟨hmain, ?_⟩
  intro c
  rw [hmain]
  cases hr : args.resource <;>
    simp [hr, list_task, delete_task]

/-- C5 witness: at the concrete declining world (stdin answers `n`), a
default DELETE pubkeys run lists, prompts, and exits successfully. -/
theorem c5_witness :
    main okWorld argsDeletePubkey =
      ([Event.ranCmd
          (make_sqlite3_cmd okWorld.pathEnv argsDeletePubkey
            (list_proto argsDeletePubkey.resource))
          (list_task argsDeletePubkey.resource),
        Event.prompted], .ok ()) :=
  (c5_declined_delete okWorld argsDeletePubkey
    { success := true, statusStr := "exit status: 0", stderrUtf8 := some "" }
    "n\n" rfl rfl rfl rfl rfl rfl (by rfl)).1

/-- C6: on a DELETE with confirmation enabled, the program first executes
the LIST command for the same resource — whose built statement is the LIST
prototype followed by exactly the same WHERE/LIMIT tail as the pending
DELETE statement, so the two statements differ only in their fixed
prototype — and only then prompts; with `--confirm-delete-off` neither the
LIST nor the prompt occurs and the delete executes directly. -/
theorem c6_list_then_prompt {Os : Type} (w : World Os) (args : TmsadmArgs)
    (hop : args.operation = TmsOperation.DELETE)
    (hdb : w.isFile (get_absolute_path w.pathEnv args.dbpath) = true) :
    ((make_sqlite3_cmd w.pathEnv args (list_proto args.resource)).sql =
        some (list_proto args.resource ++ sql_tail args) ∧
     (make_sqlite3_cmd w.pathEnv args (delete_proto args.resource)).sql =
        some (delete_proto args.resource ++ sql_tail args)) ∧
    (∀ o : CmdOutput, args.confirm_delete_off = false →
      w.exec (make_sqlite3_cmd w.pathEnv args (list_proto args.resource)) =
        .ok o →
      o.success = true →
      ∃ rest, (main w args).1 =
        Event.ranCmd
          (make_sqlite3_cmd w.pathEnv args (list_proto args.resource))
          (list_task args.resource) ::
        Event.prompted :: rest) ∧
    (args.confirm_delete_off = true →
      main w args =
        ([Event.ranCmd
            (make_sqlite3_cmd w.pathEnv args (delete_proto args.resource))
            (delete_task args.resource)],
         (run_command w
            (make_sqlite3_cmd w.pathEnv args (delete_proto args.resource))
            (delete_task args.resource)).2) ∧
      Event.prompted ∉ (main w args).1) := by
  refine ⟨⟨sql_of_make_sqlite3_cmd _ _ _, sql_of_make_sqlite3_cmd _ _ _⟩,
    ?_, ?_⟩
  · intro o hcf hex hsu
    have hlist :
        ((fun w1 a1 =>
            run_command w1
              (make_sqlite3_cmd w1.pathEnv a1 (list_proto args.resource))
              (list_task args.resource)) w args).2 = Except.ok () := by
      simp [run_command_ok w _ _ o hex hsu]
    obtain ⟨rest, hrest⟩ :=
      process_delete_generic_prompt_trace w args
        (fun w1 a1 =>
          run_command w1
            (make_sqlite3_cmd w1.pathEnv a1 (list_proto args.resource))
            (list_task args.resource))
        (delete_proto args.resource) (delete_task args.resource) hcf hlist
    refine ⟨rest, ?_⟩
    rw [main_delete_eq w args hdb hop, hrest,
      run_command_ok w _ _ o hex hsu]
    rfl
  · intro hcf
    have hmain : main w args =
        ([Event.ranCmd
            (make_sqlite3_cmd w.pathEnv args (delete_proto args.resource))
            (delete_task args.resource)],
         (run_command w
            (make_sqlite3_cmd w.pathEnv args (delete_proto args.resource))
            (delete_task args.resource)).2) := by
      rw [main_delete_eq w args hdb hop,
        process_delete_generic_off w args _ _ _ hcf]
      rfl
    refine ⟨hmain, ?_⟩
    rw [hmain]
    simp

/-- C6 witness: scenario B (`--confirm-delete-off`) runs the delete command
directly with no prompt. -/
theorem c6_witness :
    main okWorld argsScenarioB =
      ([Event.ranCmd
          (make_sqlite3_cmd okWorld.pathEnv argsScenarioB
            (delete_proto argsScenarioB.resource))
          (delete_task argsScenarioB.resource)],
       (run_command okWorld
          (make_sqlite3_cmd okWorld.pathEnv argsScenarioB
            (delete_proto argsScenarioB.resource))
          (delete_task argsScenarioB.resource)).2) ∧
      Event.prompted ∉ (main okWorld argsScenarioB).1 :=
  (c6_list_then_prompt okWorld argsScenarioB rfl rfl).2.2 rfl

/-- C7: when the database file at the resolved path does not exist, `main`
terminates with an error (non-zero exit) whose message names the resolved
path, and its trace is empty: no external process is ever invoked. -/
theorem c7_missing_db_file {Os : Type} (w : World Os) (args : TmsadmArgs)
    (hdb : w.isFile (get_absolute_path w.pathEnv args.dbpath) = false) :
    main w args =
      ([], .error ("Database file does not exist: " ++
        get_absolute_path w.pathEnv args.dbpath)) := by
  unfold main check_db_file
  rw [hdb]
  simp

/-- A world identical to `okWorld` except that no file exists. -/
def noDbWorld : World String :=
  { okWorld with isFile := fun _ => false }

/-- C7 witness: with a missing database file, the concrete run produces an
empty trace and the fatal message naming the resolved path. -/
theorem c7_witness :
    main noDbWorld argsListPubkey =
      ([], .error ("Database file does not exist: " ++
        get_absolute_path noDbWorld.pathEnv argsListPubkey.dbpath)) :=
  c7_missing_db_file noDbWorld argsListPubkey rfl

/-- C8: `run_command` panics with a task-prefixed message when the child
could not be launched; when the child ran and exited non-zero it panics
with the task label and the captured stderr text when that text is
available (valid UTF-8), and otherwise with the generic unknown-error
message naming the executable and the exit status; a zero exit status
returns control with no error. -/
theorem c8_run_command_errors {Os : Type} (w : World Os) (c : OsCommand)
    (task : String) :
    (∀ e, w.exec c = .error e →
      run_command w c task =
        ([Event.ranCmd c task], .error (task ++ ": " ++ e))) ∧
    (∀ o s, w.exec c = .ok o → o.success = false → o.stderrUtf8 = some s →
      run_command w c task =
        ([Event.ranCmd c task], .error (task ++ ": " ++ s))) ∧
    (∀ o, w.exec c = .ok o → o.success = false → o.stderrUtf8 = none →
      run_command w c task =
        ([Event.ranCmd c task], .error (task ++ ": " ++
          ("Unknown error condition returned by command: " ++ c.program ++
           " with exit status: " ++ o.statusStr)))) ∧
    (∀ o, w.exec c = .ok o → o.success = true →
      run_command w c task = ([Event.ranCmd c task], .ok ())) := by
  refine ⟨?_, ?_, ?_, ?_⟩
  · intro e he
    unfold run_command
    rw [he]
  · intro o s ho hsu hst
    unfold run_command
    rw [ho]
    simp [hsu, hst, run_command_emsg]
  · intro o ho hsu hst
    unfold run_command
    rw [ho]
    simp [hsu, hst, run_command_emsg]
  · intro o ho hsu
    unfold run_command
    rw [ho]
    simp [hsu]

/-- A world whose child processes fail with exit status 1 and stderr text
`no such table`. -/
def failWorld : World String :=
  { okWorld with
      exec := fun _ =>
        .ok { success := false, statusStr := "exit status: 1",
              stderrUtf8 := some "no such table: pubkeys" } }

/-- C8 witness (end-to-end scenario D): a child that exits non-zero with
stderr text makes `run_command` fail with the task label and that text. -/
theorem c8_witness :
    run_command failWorld
      (make_sqlite3_cmd failWorld.pathEnv argsListPubkey LIST_PUBKEY)
      "LIST pubkeys" =
      ([Event.ranCmd
          (make_sqlite3_cmd failWorld.pathEnv argsListPubkey LIST_PUBKEY)
          "LIST pubkeys"],
       .error ("LIST pubkeys" ++ ": " ++ "no such table: pubkeys")) :=
  (c8_run_command_errors failWorld
    (make_sqlite3_cmd failWorld.pathEnv argsListPubkey LIST_PUBKEY)
    "LIST pubkeys").2.1
    { success := false, statusStr := "exit status: 1",
      stderrUtf8 := some "no such table: pubkeys" }
    "no such table: pubkeys" rfl rfl rfl

/-- C9: `get_absolute_path` is a total function on strings (it never fails
the program), and on every failure of a transformation step — tilde or
environment-variable expansion fails, absolutization fails, or the
absolutized path is not valid UTF-8 — it returns the original, unmodified
input string. -/
theorem c9_path_fallback {Os : Type} (env : PathEnv Os) (path : String) :
    (∀ e, env.shellexpandFull path = .error e →
      get_absolute_path env path = path) ∧
    (∀ s e, env.shellexpandFull path = .ok s → env.absolutize s = .error e →
      get_absolute_path env path = path) ∧
    (∀ s p1, env.shellexpandFull path = .ok s → env.absolutize s = .ok p1 →
      env.toStr p1 = none → get_absolute_path env path = path) := by
  refine ⟨?_, ?_, ?_⟩
  · intro e he
    simp only [get_absolute_path, he]
  · intro s e hs ha
    simp only [get_absolute_path, hs, ha]
  · intro s p1 hs ha ht
    simp only [get_absolute_path, hs, ha, ht]

/-- A `PathEnv` in which tilde/environment expansion always fails (an
undefined variable reference). -/
def lookupFailEnv : PathEnv String :=
  { shellexpandFull := fun _ => .error "environment variable not found"
    absolutize := fun s => .ok s
    toStr := fun s => some s }

/-- C9 witness: with an undefined environment variable in the path, the
resolver returns the input unchanged. -/
theorem c9_witness :
    get_absolute_path lookupFailEnv "$TMS_HOME/database/tms.db" =
      "$TMS_HOME/database/tms.db" :=
  (c9_path_fallback lookupFailEnv "$TMS_HOME/database/tms.db").1
    "environment variable not found" rfl

/-- The path contains neither a tilde nor an environment-variable
reference. -/
def noExpandChars (s : String) : Bool :=
  !(s.data.contains '~') && !(s.data.contains '$')

/-- The path is absolute (begins with the path separator). -/
def isAbsolutePath (s : String) : Bool :=
  match s.data with
  | [] => false
  | c :: _ => c == '/'

/-- The composite `absolutize`-then-`to_str` step of `get_absolute_path`,
as a partial function on strings. -/
def absolutizeStr {Os : Type} (env : PathEnv Os) (s : String) :
    Option String :=
  match env.absolutize s with
  | .error _ => none
  | .ok p1 => env.toStr p1

/-- C10: path resolution is idempotent on already-absolute paths containing
no `~` and no environment references, given the documented behaviour of the
expansion libraries: `shellexpand::full` leaves a string with no `~`/`$`
unchanged (L1), and absolutization of an absolute path is a fixed point
that introduces no `~`/`$` and stays absolute (L2, L3). -/
theorem c10_resolve_idempotent {Os : Type} (env : PathEnv Os) (p : String)
    (hne : noExpandChars p = true) (habs : isAbsolutePath p = true)
    (L1 : ∀ s, noExpandChars s = true → env.shellexpandFull s = .ok s)
    (L2 : ∀ s u, isAbsolutePath s = true → absolutizeStr env s = some u →
      absolutizeStr env u = some u)
    (L3 : ∀ s u, isAbsolutePath s = true → noExpandChars s = true →
      absolutizeStr env s = some u →
      noExpandChars u = true ∧ isAbsolutePath u = true) :
    get_absolute_path env (get_absolute_path env p) =
      get_absolute_path env p := by
  have hfull := L1 p hne
  cases ha : env.absolutize p with
  | error e =>
    have hgp : get_absolute_path env p = p := by
      simp only [get_absolute_path, hfull, ha]
    rw [hgp, hgp]
  | ok p1 =>
    cases ht : env.toStr p1 with
    | none =>
      have hgp : get_absolute_path env p = p := by
        simp only [get_absolute_path, hfull, ha, ht]
      rw [hgp, hgp]
    | some u =>
      have hgp : get_absolute_path env p = u := by
        simp only [get_absolute_path, hfull, ha, ht]
      have hastr : absolutizeStr env p = some u := by
        simp only [absolutizeStr, ha, ht]
      obtain ⟨hneu, habsu⟩ := L3 p u habs hne hastr
      have hAu : absolutizeStr env u = some u := L2 p u habs hastr
      have hgu : get_absolute_path env u = u := by
        cases hau : env.absolutize u with
        | error e2 =>
          simp only [absolutizeStr, hau] at hAu
          exact absurd hAu (by simp)
        | ok t =>
          simp only [absolutizeStr, hau] at hAu
          simp only [get_absolute_path, L1 u hneu, hau, hAu]
      rw [hgp, hgu]

/-- A `PathEnv` model for the C10 witness: expansion succeeds exactly on
strings with nothing to expand, absolutization succeeds exactly on absolute
paths (as the identity). -/
def plainPathEnv : PathEnv String :=
  { shellexpandFull :=
      fun s => if noExpandChars s then .ok s
               else .error "environment variable not found"
    absolutize :=
      fun s => if isAbsolutePath s then .ok s else .error "not absolute"
    toStr := fun s => some s }

theorem plainPathEnv_L1 (s : String) (h : noExpandChars s = true) :
    plainPathEnv.shellexpandFull s = .ok s := by
  simp [plainPathEnv, h]

theorem plainPathEnv_absolutizeStr (s : String) :
    absolutizeStr plainPathEnv s =
      (if isAbsolutePath s then some s else none) := by
  unfold absolutizeStr plainPathEnv
  by_cases h : isAbsolutePath s <;> simp [h]

theorem plainPathEnv_L2 (s u : String) (hs : isAbsolutePath s = true)
    (h : absolutizeStr plainPathEnv s = some u) :
    absolutizeStr plainPathEnv u = some u := by
  rw [plainPathEnv_absolutizeStr] at h
  rw [hs] at h
  simp at h
  subst h
  rw [plainPathEnv_absolutizeStr, hs]
  simp

theorem plainPathEnv_L3 (s u : String) (hs : isAbsolutePath s = true)
    (hne : noExpandChars s = true)
    (h : absolutizeStr plainPathEnv s = some u) :
    noExpandChars u = true ∧ isAbsolutePath u = true := by
  rw [plainPathEnv_absolutizeStr] at h
  rw [hs] at h
  simp at h
  subst h
  exact ⟨hne, hs⟩

/-- C10 witness: resolving the concrete absolute path twice under the model
environment yields the same string as resolving it once. -/
theorem c10_witness :
    get_absolute_path plainPathEnv
        (get_absolute_path plainPathEnv "/home/tms/.tms/database/tms.db") =
      get_absolute_path plainPathEnv "/home/tms/.tms/database/tms.db" :=
  c10_resolve_idempotent plainPathEnv "/home/tms/.tms/database/tms.db"
    (by rfl) (by rfl) plainPathEnv_L1 plainPathEnv_L2 plainPathEnv_L3

end Tmsadm
